import Mathlib

/-!
Shallow embedding of `SeasonMetricsCompareAtGame.py`.

A `SeasonRecord` models the DataFrame returned by `schedule_and_record`:
one row per scheduled game, 1-based game index, each row carrying the
cumulative `W-L` string (or `none` while the game is unplayed, mirroring
pandas `None`/`NaN`) and the per-game runs scored / runs allowed columns
(`none` while unplayed; the pandas `.sum()` skips those).

Python exceptions are modelled by `Option`: a function that can raise
returns `none` where the Python code would throw (KeyError on a missing
index label, AttributeError on `None.split`, ValueError on `int(...)`,
TypeError on `round("---", 4)`).  Floating-point arithmetic is modelled
over `ℚ` where the exponent is the integer 2, and over `ℝ` with real
powers for the 1.83 exponent.
-/

namespace SeasonMetrics

/-- One row of the season table: cumulative `W-L` record string and the
per-game `R` / `RA` columns, each absent (`none`) for unplayed games. -/
structure SeasonRow where
  wl : Option String
  r : Option ℕ
  ra : Option ℕ
deriving DecidableEq

/-- The season table, row `i` (0-based list position) holding game `i+1`. -/
abbrev SeasonRecord := List SeasonRow

/-- Parse a non-empty all-digit character list as a natural number
(accumulator form, structural recursion). -/
def parse_digits : List Char → ℕ → Option ℕ
  | [], acc => some acc
  | c :: cs, acc => if c.isDigit then parse_digits cs (10 * acc + (c.toNat - '0'.toNat)) else none

/-- Model of Python `int(s)` on a string: optional sign followed by one
or more decimal digits; `none` models the ValueError raised on anything
else (exotic accepted forms — surrounding whitespace, underscores — are
not modelled, as the data never contains them). -/
def str_to_int (s : String) : Option ℤ :=
  match s.data with
  | [] => none
  | '-' :: rest => if rest = [] then none else (parse_digits rest 0).map fun n => -(n : ℤ)
  | '+' :: rest => if rest = [] then none else (parse_digits rest 0).map fun n => (n : ℤ)
  | ds => (parse_digits ds 0).map fun n => (n : ℤ)

/-- Embedding of `get_wins`: `int(record.split('-')[0])`.  The `[0]`
field of a `split('-')` is exactly the prefix of the string before the
first `'-'` (the whole string when there is none); `none` models the
ValueError Python raises when that field is not an integer. -/
def get_wins (record : String) : Option ℤ :=
  str_to_int (String.mk (record.data.takeWhile fun c => c ≠ '-'))

/-- Embedding of `get_wins_after_games`: returns `some 0` when
`games_played` is outside `[1, 162]`; otherwise looks up row
`games_played` (`.loc` KeyError when absent, modelled by the outer
`bind`) and parses its `W-L` cell (AttributeError on a `None` cell,
modelled by the inner `bind`). -/
def get_wins_after_games (team_season_data : SeasonRecord) (games_played : ℤ) : Option ℤ :=
  if games_played < 1 ∨ games_played > 162 then
    some 0
  else
    (team_season_data[(games_played - 1).toNat]?).bind fun row => row.wl.bind get_wins

/-- Embedding of `get_season_games_played`: the number of non-`None`
entries of the `W-L` column. -/
def get_season_games_played (team_season_data : SeasonRecord) : ℕ :=
  (team_season_data.filter fun row => row.wl.isSome).length

/-- Global constant `TOTAL_GAMES_MODERN`. -/
def TOTAL_GAMES_MODERN : ℤ := 162

/-- Global constant `TOTAL_GAMES_OLDEN`. -/
def TOTAL_GAMES_OLDEN : ℤ := 154

/-- Global constant `OAK_2023_DIFF`. -/
def OAK_2023_DIFF : ℤ := -339

/-- Global constant `BOS_1932_DIFF`. -/
def BOS_1932_DIFF : ℤ := -349

/-- Cumulative runs scored through game `g`: `diff_data.loc[:g, 'R'].sum()`
(the label slice is inclusive; pandas `.sum()` skips absent entries). -/
def runs_scored_through (rec : SeasonRecord) (g : ℤ) : ℕ :=
  ((rec.take g.toNat).filterMap fun row => row.r).sum

/-- Cumulative runs allowed through game `g`: `diff_data.loc[:g, 'RA'].sum()`. -/
def runs_allowed_through (rec : SeasonRecord) (g : ℤ) : ℕ :=
  ((rec.take g.toNat).filterMap fun row => row.ra).sum

/-- A table value in `generate_chart`: either a number or the `"---"`
"not applicable" sentinel the code uses when a games-remaining
denominator is zero. -/
inductive MetricValue where
  | num (q : ℚ)
  | na
deriving DecidableEq

/-- The metrics computed by `generate_chart` (lines 127-154), gathered in
one record.  The 1.83-exponent figures are kept separate (over `ℝ`) in
`pythagoreanWinPct` below, since they involve a non-integer power. -/
structure DiffReport where
  runDiff : ℤ
  runDiffPerGame : ℚ
  gamesRemaining162 : ℤ
  gamesRemaining154 : ℤ
  reqDiffModern : MetricValue
  reqDiffOlden : MetricValue
  reqDiffOldenModernGames : MetricValue
  currentWins : ℤ
  currentWinPct : ℚ
  pythagWinPct : ℚ
  pythagWins : ℚ
deriving DecidableEq

/-- Embedding of the metric computation of `generate_chart` (lines
127-154).  `none` models the exception that propagates out of
`get_wins_after_games` when the row for game `g` is absent. -/
def generate_chart_metrics (rec : SeasonRecord) (games_played : ℤ) : Option DiffReport :=
  let runs_scored := runs_scored_through rec games_played
  let runs_allowed := runs_allowed_through rec games_played
  let run_diff : ℤ := (runs_scored : ℤ) - (runs_allowed : ℤ)
  let run_diff_per_game : ℚ := (run_diff : ℚ) / (games_played : ℚ)
  let games_remaining_modern : ℤ :=
    if TOTAL_GAMES_MODERN > games_played then TOTAL_GAMES_MODERN - games_played else 0
  let games_remaining_olden : ℤ :=
    if TOTAL_GAMES_OLDEN > games_played then TOTAL_GAMES_OLDEN - games_played else 0
  let run_diff_per_game_modern_record : MetricValue :=
    if games_remaining_modern > 0 then
      .num (((OAK_2023_DIFF - run_diff : ℤ) : ℚ) / (games_remaining_modern : ℚ))
    else .na
  let run_diff_per_game_olden_record : MetricValue :=
    if games_remaining_olden > 0 then
      .num (((BOS_1932_DIFF - run_diff : ℤ) : ℚ) / (games_remaining_olden : ℚ))
    else .na
  let run_diff_per_game_olden_record_modern_games : MetricValue :=
    if games_remaining_modern > 0 then
      .num (((BOS_1932_DIFF - run_diff : ℤ) : ℚ) / (games_remaining_modern : ℚ))
    else .na
  (get_wins_after_games rec games_played).map fun (current_wins : ℤ) =>
    let current_win_percentage : ℚ := (current_wins : ℚ) / (games_played : ℚ)
    let pythagorean_win_percentage : ℚ :=
      ((runs_scored : ℚ) ^ 2) / ((runs_scored : ℚ) ^ 2 + (runs_allowed : ℚ) ^ 2)
    let pythagorean_wins : ℚ := pythagorean_win_percentage * (games_played : ℚ)
    { runDiff := run_diff
      runDiffPerGame := run_diff_per_game
      gamesRemaining162 := games_remaining_modern
      gamesRemaining154 := games_remaining_olden
      reqDiffModern := run_diff_per_game_modern_record
      reqDiffOlden := run_diff_per_game_olden_record
      reqDiffOldenModernGames := run_diff_per_game_olden_record_modern_games
      currentWins := current_wins
      currentWinPct := current_win_percentage
      pythagWinPct := pythagorean_win_percentage
      pythagWins := pythagorean_wins }

/-- The Pythagorean win-percentage formula of `generate_chart`
(`runs_scored ** e / (runs_scored ** e + runs_allowed ** e)`), over `ℝ`
with the real power so that the 1.83 exponent is expressible. -/
noncomputable def pythagoreanWinPct (runsScored runsAllowed exponent : ℝ) : ℝ :=
  runsScored ^ exponent / (runsScored ^ exponent + runsAllowed ^ exponent)

/-- Caption of the `y1_last > y2_last` branch of `post_plot_to_bluesky`
(season B is "somehow worse", margin `y1_last - y2_last`). -/
def worse_caption (teamA : String) (yearA : ℤ) (teamB : String) (yearB : ℤ)
    (games_played y1_last y2_last : ℤ) : String :=
  "With " ++ toString games_played ++ " game(s) in the books, the " ++ teamB ++ " " ++
    toString yearB ++ " season is somehow worse at " ++ toString y2_last ++ " wins, " ++
    "behind the " ++ teamA ++ " " ++ toString yearA ++ " season by " ++
    toString (y1_last - y2_last) ++ " win(s)." ++ "\n\n" ++
    "No \x27could always be\x27 worse here. It *is* worse at this point."

/-- Caption of the `y1_last < y2_last` branch of `post_plot_to_bluesky`
(season B is "ahead", margin `y2_last - y1_last`). -/
def ahead_caption (teamA : String) (yearA : ℤ) (teamB : String) (yearB : ℤ)
    (games_played y1_last y2_last : ℤ) : String :=
  "Through " ++ toString games_played ++ " game(s) played, the " ++ teamB ++ " " ++
    toString yearB ++ " season is ahead with " ++ toString y2_last ++ " wins, " ++
    "above the " ++ teamA ++ " " ++ toString yearA ++ " season by " ++
    toString (y2_last - y1_last) ++ " win(s)." ++ "\n\n" ++
    "The grass, for now, is greener here. It could always be worse."

/-- Caption of the equal-wins branch of `post_plot_to_bluesky`. -/
def tie_caption (teamA : String) (yearA : ℤ) (teamB : String) (yearB : ℤ)
    (games_played y1_last _y2_last : ℤ) : String :=
  "After " ++ toString games_played ++ " game(s), the " ++ teamB ++ " " ++
    toString yearB ++ " season isn\x27t better than the " ++ teamA ++ " " ++
    toString yearA ++ " season at " ++ toString y1_last ++ " win(s) each." ++ "\n\n" ++
    "But it also isn\x27t worse."

/-- Embedding of the caption selection of `post_plot_to_bluesky` (lines
234-258): three-way branch on the two final win counts. -/
def post_plot_caption (teamA : String) (yearA : ℤ) (teamB : String) (yearB : ℤ)
    (games_played y1_last y2_last : ℤ) : String :=
  if y1_last > y2_last then
    worse_caption teamA yearA teamB yearB games_played y1_last y2_last
  else if y1_last < y2_last then
    ahead_caption teamA yearA teamB yearB games_played y1_last y2_last
  else
    tie_caption teamA yearA teamB yearB games_played y1_last y2_last

/-- A `pairs` entry of the configuration. -/
structure TrackedPair where
  teamA : String
  yearA : ℤ
  colorA : String
  teamB : String
  yearB : ℤ
  colorB : String
  games_played : ℤ
deriving DecidableEq

/-- A `diffs` entry of the configuration. -/
structure TrackedDiff where
  team : String
  year : ℤ
  games_played : ℤ
deriving DecidableEq

/-- The configuration document: `pairs` and `diffs` lists. -/
structure Config where
  pairs : List TrackedPair
  diffs : List TrackedDiff
deriving DecidableEq

/-- The win series `[get_wins_after_games(rec, i) for i in 1..g]` of
`generate_plot`; `none` when any lookup raises. -/
def wins_series (rec : SeasonRecord) (g : ℤ) : Option (List ℤ) :=
  ((List.range g.toNat).map fun i => (i : ℤ) + 1).mapM (get_wins_after_games rec)

/-- Embedding of the data flow of `generate_plot`: the two win series and
the returned pair `(y1[-1], y2[-1])`.  `none` models an exception: a
failing win lookup, or the IndexError of `y1[-1]` on an empty series
(`games_played < 1`, unreachable from the guarded loop). -/
def generate_plot_result (the_last this_time : SeasonRecord) (games_played : ℤ) :
    Option (ℤ × ℤ) := do
  let y1 ← wins_series the_last games_played
  let y2 ← wins_series this_time games_played
  match y1.getLast?, y2.getLast? with
  | some a, some b => some (a, b)
  | _, _ => none

/-- Embedding of `generate_chart` as a whole: the metric computation
followed by the table construction.  Building the `Value` column applies
`round(v, 4)` to each required-differential entry, which raises a
TypeError when the entry is the string sentinel `"---"` — so the chart
build raises whenever a games-remaining denominator was 0. -/
def generate_chart_result (rec : SeasonRecord) (games_played : ℤ) : Option DiffReport :=
  match generate_chart_metrics rec games_played with
  | none => none
  | some rep =>
    if rep.reqDiffModern = .na ∨ rep.reqDiffOlden = .na then none else some rep

/-- External-world outcome for one `pairs` iteration: the two
`schedule_and_record` fetches (`none` = the call raises) and whether the
Bluesky publish succeeds. -/
structure PairEnv where
  fetchA : Option SeasonRecord
  fetchB : Option SeasonRecord
  publishOk : Bool
deriving DecidableEq

/-- External-world outcome for one `diffs` iteration. -/
structure DiffEnv where
  fetch : Option SeasonRecord
  publishOk : Bool
deriving DecidableEq

/-- Observable outcome of one loop iteration: whether an exception
escaped, whether a chart image was generated, whether a publish call
succeeded, and the tracker as left in the in-memory configuration. -/
structure ItemStep (α : Type) where
  raised : Bool
  chartGenerated : Bool
  published : Bool
  tracker : α
deriving DecidableEq

/-- Embedding of one iteration of the `pairs` loop of `main` (lines
316-355): fetch both seasons, set `g = games_played + 1`, skip via
`continue` when `g` is out of range for either record (no chart, no
publish, cursor untouched), otherwise generate the plot, publish, and
only then advance the cursor. -/
def process_pair_item (p : TrackedPair) (env : PairEnv) : ItemStep TrackedPair :=
  match env.fetchA with
  | none => ⟨true, false, false, p⟩
  | some the_last =>
    match env.fetchB with
    | none => ⟨true, false, false, p⟩
    | some this_time =>
      let games_played := p.games_played + 1
      if games_played < 1 ∨ games_played > (get_season_games_played the_last : ℤ) ∨
          games_played > (get_season_games_played this_time : ℤ) then
        ⟨false, false, false, p⟩
      else
        match generate_plot_result the_last this_time games_played with
        | none => ⟨true, false, false, p⟩
        | some _ =>
          if env.publishOk then
            ⟨false, true, true, { p with games_played := p.games_played + 1 }⟩
          else
            ⟨true, true, false, p⟩

/-- Embedding of one iteration of the `diffs` loop of `main` (lines
358-401), with the same skip/advance discipline as the pairs loop. -/
def process_diff_item (d : TrackedDiff) (env : DiffEnv) : ItemStep TrackedDiff :=
  match env.fetch with
  | none => ⟨true, false, false, d⟩
  | some diff_data =>
    let games_played := d.games_played + 1
    if games_played < 1 ∨ games_played > (get_season_games_played diff_data : ℤ) then
      ⟨false, false, false, d⟩
    else
      match generate_chart_result diff_data games_played with
      | none => ⟨true, false, false, d⟩
      | some _ =>
        if env.publishOk then
          ⟨false, true, true, { d with games_played := d.games_played + 1 }⟩
        else
          ⟨true, true, false, d⟩

/-- The `pairs` loop.  Returns the in-memory tracker list after the loop,
the per-item publish flags, and whether an exception escaped the loop
(in which case the remaining items are left untouched and unpublished —
there is no per-item handler in `main`). -/
def runPairsLoop (f : ℕ → PairEnv) : ℕ → List TrackedPair → List TrackedPair × List Bool × Bool
  | _, [] => ([], [], false)
  | i, p :: rest =>
    let s := process_pair_item p (f i)
    if s.raised then
      (s.tracker :: rest, false :: rest.map (fun _ => false), true)
    else
      let result := runPairsLoop f (i + 1) rest
      (s.tracker :: result.1, s.published :: result.2.1, result.2.2)

/-- The `diffs` loop, with the same shape as `runPairsLoop`. -/
def runDiffsLoop (f : ℕ → DiffEnv) : ℕ → List TrackedDiff → List TrackedDiff × List Bool × Bool
  | _, [] => ([], [], false)
  | i, d :: rest =>
    let s := process_diff_item d (f i)
    if s.raised then
      (s.tracker :: rest, false :: rest.map (fun _ => false), true)
    else
      let result := runDiffsLoop f (i + 1) rest
      (s.tracker :: result.1, s.published :: result.2.1, result.2.2)

/-- External-world outcomes for one whole run of `main`: lock
availability, whether config/secrets loading and login succeed, and the
per-iteration outcomes of the two loops. -/
structure MainEnv where
  lockAvailable : Bool
  loadOk : Bool
  pairEnv : ℕ → PairEnv
  diffEnv : ℕ → DiffEnv

/-- Observable result of one run of `main`: process exit code, whether
an exception was caught by the broad handler, the configuration file
content after the run, whether the cleanup steps of the `finally` block
ran, and the publish flags of the two loops. -/
structure MainResult where
  exitCode : ℕ
  raised : Bool
  diskConfig : Config
  cacheFlushedCurrentYear : Bool
  lockReleased : Bool
  pairPubs : List Bool
  diffPubs : List Bool
deriving DecidableEq

/-- Embedding of `main` (lines 289-417) given a starting configuration
file content `cfg0`.  `acquire_lock` calls `exit(1)` before the
`try`/`finally` is entered, so on lock contention nothing is flushed or
released by the program.  Inside the `try`, any exception (config load,
login, or one escaping a loop) is caught by the broad `except` of line
408, after which the `finally` block flushes the current-year cache and
releases the lock and `main` returns normally — the process exit code is
0.  `save_yaml` (line 405) runs only when both loops finish without an
exception, so the file content changes only on that path. -/
def runMain (env : MainEnv) (cfg0 : Config) : MainResult :=
  if ¬ env.lockAvailable then
    ⟨1, false, cfg0, false, false, [], []⟩
  else if ¬ env.loadOk then
    ⟨0, true, cfg0, true, true, [], []⟩
  else
    let pairsResult := runPairsLoop env.pairEnv 0 cfg0.pairs
    if pairsResult.2.2 then
      ⟨0, true, cfg0, true, true, pairsResult.2.1, []⟩
    else
      let diffsResult := runDiffsLoop env.diffEnv 0 cfg0.diffs
      if diffsResult.2.2 then
        ⟨0, true, cfg0, true, true, pairsResult.2.1, diffsResult.2.1⟩
      else
        ⟨0, false, ⟨pairsResult.1, diffsResult.1⟩, true, true, pairsResult.2.1, diffsResult.2.1⟩

end SeasonMetrics

namespace SeasonMetrics

/-- A small season record used in concrete instances: four completed
games, record `3-1`, 17 runs scored, 13 allowed. -/
def sampleRecord : SeasonRecord :=
  [⟨some "1-0", some 5, some 3⟩, ⟨some "2-0", some 4, some 2⟩,
   ⟨some "3-0", some 6, some 1⟩, ⟨some "3-1", some 2, some 7⟩]

/-- A season record whose row for game 8 holds the `W-L` string `5-3`. -/
def record8 : SeasonRecord :=
  [⟨some "1-0", some 4, some 1⟩, ⟨some "1-1", some 2, some 5⟩,
   ⟨some "2-1", some 6, some 2⟩, ⟨some "2-2", some 1, some 3⟩,
   ⟨some "3-2", some 7, some 0⟩, ⟨some "4-2", some 5, some 4⟩,
   ⟨some "4-3", some 2, some 6⟩, ⟨some "5-3", some 3, some 1⟩]

/-- A one-game season with zero runs scored and zero runs allowed. -/
def zeroRunsRecord : SeasonRecord := [⟨some "0-1", some 0, some 0⟩]

/-- A season record with 12 completed games. -/
def record12 : SeasonRecord :=
  [⟨some "1-0", some 4, some 1⟩, ⟨some "2-0", some 2, some 1⟩,
   ⟨some "3-0", some 6, some 2⟩, ⟨some "4-0", some 1, some 0⟩,
   ⟨some "5-0", some 7, some 0⟩, ⟨some "6-0", some 5, some 4⟩,
   ⟨some "7-0", some 2, some 1⟩, ⟨some "8-0", some 3, some 1⟩,
   ⟨some "9-0", some 4, some 2⟩, ⟨some "9-1", some 1, some 6⟩,
   ⟨some "9-2", some 0, some 3⟩, ⟨some "10-2", some 8, some 2⟩]

/-- The spec scenario tracker: `games_played = 9`, compared seasons with
12 and 8 completed games, so `g = 10` is out of range for the second. -/
def scenarioPair : TrackedPair := ⟨"NYM", 1962, "red", "CWS", 2024, "blue", 9⟩

/-- A diff tracker whose cursor already sits at `sampleRecord`'s final
completed game (4). -/
def finishedDiff : TrackedDiff := ⟨"OAK", 2025, 4⟩

/-- A pair tracker whose cursor already sits at `sampleRecord`'s final
completed game (4). -/
def finishedPair : TrackedPair := ⟨"NYM", 1962, "red", "CWS", 2024, "blue", 4⟩

/-- Pair-loop outcomes fetching `record12` and `record8` for every item. -/
def pairLoopEnv : ℕ → PairEnv := fun _ => ⟨some record12, some record8, true⟩

/-- Diff-loop outcomes fetching `sampleRecord` for every item. -/
def diffLoopEnv : ℕ → DiffEnv := fun _ => ⟨some sampleRecord, true⟩

/-- The report `generate_chart_metrics` computes for `sampleRecord` at
game 1. -/
def sampleReport : DiffReport := (generate_chart_metrics sampleRecord 1).get (by decide)

/-- Main-run outcomes where every pair fetch fails, the first diff fetch
succeeds with `sampleRecord`, and every later diff fetch fails. -/
def failSecondEnv : MainEnv :=
  ⟨true, true, fun _ => ⟨none, none, false⟩,
   fun i => if i = 0 then ⟨some sampleRecord, true⟩ else ⟨none, true⟩⟩

/-- A configuration with two diff trackers, both with cursor 3. -/
def twoDiffConfig : Config := ⟨[], [⟨"A", 2025, 3⟩, ⟨"B", 2025, 3⟩]⟩

/-- Diff-loop outcomes where the first fetch fails and every later one
succeeds with `sampleRecord`. -/
def failFirstDiffEnv : ℕ → DiffEnv :=
  fun i => if i = 0 then ⟨none, true⟩ else ⟨some sampleRecord, true⟩

/-- Main-run outcomes where the lock is available but the configuration
fails to load. -/
def loadFailEnv : MainEnv :=
  ⟨true, false, fun _ => ⟨none, none, false⟩, fun _ => ⟨none, false⟩⟩

/-- Main-run outcomes where another instance holds the lock. -/
def lockHeldEnv : MainEnv :=
  ⟨false, true, fun _ => ⟨some sampleRecord, some sampleRecord, true⟩,
   fun _ => ⟨some sampleRecord, true⟩⟩

end SeasonMetrics

namespace SeasonMetrics

/-- Every field of a successfully computed `DiffReport`, expressed by the
defining formulas of `generate_chart` (lines 127-154). -/
theorem generate_chart_metrics_spec {rec : SeasonRecord} {g : ℤ} {r : DiffReport}
    (h : generate_chart_metrics rec g = some r) :
    get_wins_after_games rec g = some r.currentWins ∧
    r.runDiff = (runs_scored_through rec g : ℤ) - (runs_allowed_through rec g : ℤ) ∧
    r.runDiffPerGame = (r.runDiff : ℚ) / (g : ℚ) ∧
    r.gamesRemaining162 = (if TOTAL_GAMES_MODERN > g then TOTAL_GAMES_MODERN - g else 0) ∧
    r.gamesRemaining154 = (if TOTAL_GAMES_OLDEN > g then TOTAL_GAMES_OLDEN - g else 0) ∧
    r.reqDiffModern = (if r.gamesRemaining162 > 0 then
      MetricValue.num (((OAK_2023_DIFF - r.runDiff : ℤ) : ℚ) / (r.gamesRemaining162 : ℚ))
      else MetricValue.na) ∧
    r.reqDiffOlden = (if r.gamesRemaining154 > 0 then
      MetricValue.num (((BOS_1932_DIFF - r.runDiff : ℤ) : ℚ) / (r.gamesRemaining154 : ℚ))
      else MetricValue.na) ∧
    r.reqDiffOldenModernGames = (if r.gamesRemaining162 > 0 then
      MetricValue.num (((BOS_1932_DIFF - r.runDiff : ℤ) : ℚ) / (r.gamesRemaining162 : ℚ))
      else MetricValue.na) ∧
    r.currentWinPct = (r.currentWins : ℚ) / (g : ℚ) := by
  simp only [generate_chart_metrics, Option.map_eq_some'] at h
  obtain ⟨w, hw, hr⟩ := h
  subst hr
  refine ⟨hw, rfl, rfl, rfl, rfl, rfl, rfl, rfl, rfl⟩

/-- Claim C2 (amended): `get_wins_after_games` returns 0 exactly for `g`
outside `[1, 162]`; for `g` in `[1, 162]` it parses the `W-L` string of
row `g` when present, and raises (`none`) — rather than returning 0 —
when the row is absent; a row of `5-3` at game 8 yields 5. -/
theorem C2_wins_after_games :
    (∀ (rec : SeasonRecord) (g : ℤ), (g < 1 ∨ 162 < g) → get_wins_after_games rec g = some 0) ∧
    (∀ (rec : SeasonRecord) (g : ℤ) (row : SeasonRow), 1 ≤ g → g ≤ 162 →
      rec[(g - 1).toNat]? = some row →
      get_wins_after_games rec g = row.wl.bind get_wins) ∧
    (∀ (rec : SeasonRecord) (g : ℤ), 1 ≤ g → g ≤ 162 →
      rec[(g - 1).toNat]? = none → get_wins_after_games rec g = none) ∧
    get_wins_after_games record8 8 = some 5 := by
  refine ⟨?_, ?_, ?_, by decide⟩
  · intro rec g hg
    unfold get_wins_after_games
    rw [if_pos]
    exact Or.imp id id hg
  · intro rec g row h1 h2 hrow
    unfold get_wins_after_games
    rw [if_neg (by omega), hrow]
    rfl
  · intro rec g h1 h2 hrow
    unfold get_wins_after_games
    rw [if_neg (by omega), hrow]
    rfl

/-- Claim C2, witness: concrete instances of each hypothesis-guarded
part of `C2_wins_after_games`. -/
theorem C2_wins_after_games_witness :
    get_wins_after_games ([] : SeasonRecord) 200 = some 0 ∧
    get_wins_after_games sampleRecord 2 =
      (SeasonRow.mk (some "2-0") (some 4) (some 2)).wl.bind get_wins ∧
    get_wins_after_games ([] : SeasonRecord) 5 = none :=
  ⟨C2_wins_after_games.1 [] 200 (by norm_num),
   C2_wins_after_games.2.1 sampleRecord 2 ⟨some "2-0", some 4, some 2⟩
     (by norm_num) (by norm_num) (by decide),
   C2_wins_after_games.2.2.1 [] 5 (by norm_num) (by norm_num) (by decide)⟩

/-- Claim C2, counterexample to the claim as stated: `g = 5` is inside
`[1, 162]` but the row for game 5 is absent from the empty record, and
`get_wins_after_games` raises (`none`) instead of returning 0. -/
theorem C2_row_absent_counterexample :
    (1 : ℤ) ≤ 5 ∧ (5 : ℤ) ≤ 162 ∧
    get_wins_after_games ([] : SeasonRecord) 5 = none ∧
    get_wins_after_games ([] : SeasonRecord) 5 ≠ some 0 := by decide

/-- Claim C1: when `g = games_played + 1` is below 1 or exceeds the
completed-game count of any involved record, the loop body skips the
tracker: no chart, no publish, no exception, cursor unchanged; in
particular a cursor already at a season's final completed game is
skipped; and the loop then continues with the remaining trackers. -/
theorem C1_out_of_range_skip :
    (∀ (p : TrackedPair) (env : PairEnv) (recA recB : SeasonRecord),
      env.fetchA = some recA → env.fetchB = some recB →
      (p.games_played + 1 < 1 ∨ p.games_played + 1 > (get_season_games_played recA : ℤ) ∨
        p.games_played + 1 > (get_season_games_played recB : ℤ)) →
      process_pair_item p env = ⟨false, false, false, p⟩) ∧
    (∀ (d : TrackedDiff) (env : DiffEnv) (rec : SeasonRecord),
      env.fetch = some rec →
      (d.games_played + 1 < 1 ∨ d.games_played + 1 > (get_season_games_played rec : ℤ)) →
      process_diff_item d env = ⟨false, false, false, d⟩) ∧
    (∀ (p : TrackedPair) (env : PairEnv) (recA recB : SeasonRecord),
      env.fetchA = some recA → env.fetchB = some recB →
      (p.games_played = (get_season_games_played recA : ℤ) ∨
        p.games_played = (get_season_games_played recB : ℤ)) →
      process_pair_item p env = ⟨false, false, false, p⟩) ∧
    (∀ (d : TrackedDiff) (env : DiffEnv) (rec : SeasonRecord),
      env.fetch = some rec → d.games_played = (get_season_games_played rec : ℤ) →
      process_diff_item d env = ⟨false, false, false, d⟩) ∧
    (∀ (f : ℕ → PairEnv) (i : ℕ) (p : TrackedPair) (rest : List TrackedPair)
        (recA recB : SeasonRecord),
      (f i).fetchA = some recA → (f i).fetchB = some recB →
      (p.games_played + 1 < 1 ∨ p.games_played + 1 > (get_season_games_played recA : ℤ) ∨
        p.games_played + 1 > (get_season_games_played recB : ℤ)) →
      runPairsLoop f i (p :: rest) = (p :: (runPairsLoop f (i + 1) rest).1,
        false :: (runPairsLoop f (i + 1) rest).2.1, (runPairsLoop f (i + 1) rest).2.2)) ∧
    (∀ (f : ℕ → DiffEnv) (i : ℕ) (d : TrackedDiff) (rest : List TrackedDiff)
        (rec : SeasonRecord),
      (f i).fetch = some rec →
      (d.games_played + 1 < 1 ∨ d.games_played + 1 > (get_season_games_played rec : ℤ)) →
      runDiffsLoop f i (d :: rest) = (d :: (runDiffsLoop f (i + 1) rest).1,
        false :: (runDiffsLoop f (i + 1) rest).2.1, (runDiffsLoop f (i + 1) rest).2.2)) := by
  have hpair : ∀ (p : TrackedPair) (env : PairEnv) (recA recB : SeasonRecord),
      env.fetchA = some recA → env.fetchB = some recB →
      (p.games_played + 1 < 1 ∨ p.games_played + 1 > (get_season_games_played recA : ℤ) ∨
        p.games_played + 1 > (get_season_games_played recB : ℤ)) →
      process_pair_item p env = ⟨false, false, false, p⟩ := by
    intro p env recA recB hA hB hr
    obtain ⟨fA, fB, pub⟩ := env
    simp only at hA hB
    subst hA
    subst hB
    simp only [process_pair_item]
    rw [if_pos hr]
  have hdiff : ∀ (d : TrackedDiff) (env : DiffEnv) (rec : SeasonRecord),
      env.fetch = some rec →
      (d.games_played + 1 < 1 ∨ d.games_played + 1 > (get_season_games_played rec : ℤ)) →
      process_diff_item d env = ⟨false, false, false, d⟩ := by
    intro d env rec hf hr
    obtain ⟨fd, pub⟩ := env
    simp only at hf
    subst hf
    simp only [process_diff_item]
    rw [if_pos hr]
  refine ⟨hpair, hdiff, ?_, ?_, ?_, ?_⟩
  · intro p env recA recB hA hB hcur
    refine hpair p env recA recB hA hB ?_
    rcases hcur with h | h <;> omega
  · intro d env rec hf hcur
    exact hdiff d env rec hf (by omega)
  · intro f i p rest recA recB hA hB hr
    have hstep : process_pair_item p (f i) = ⟨false, false, false, p⟩ :=
      hpair p (f i) recA recB hA hB hr
    simp only [runPairsLoop, hstep]
    rfl
  · intro f i d rest rec hf hr
    have hstep : process_diff_item d (f i) = ⟨false, false, false, d⟩ :=
      hdiff d (f i) rec hf hr
    simp only [runDiffsLoop, hstep]
    rfl

/-- Claim C1, witness: the spec scenario (`gamesPlayed = 9`, 12 and 8
completed games, `g = 10` out of range for the second season) and
cursors already at the final completed game are skipped, and the loops
continue past a skipped tracker. -/
theorem C1_out_of_range_skip_witness :
    process_pair_item scenarioPair ⟨some record12, some record8, true⟩ =
      ⟨false, false, false, scenarioPair⟩ ∧
    process_diff_item finishedDiff ⟨some sampleRecord, true⟩ =
      ⟨false, false, false, finishedDiff⟩ ∧
    process_pair_item finishedPair ⟨some sampleRecord, some sampleRecord, true⟩ =
      ⟨false, false, false, finishedPair⟩ ∧
    process_diff_item finishedDiff ⟨some sampleRecord, true⟩ =
      ⟨false, false, false, finishedDiff⟩ ∧
    runPairsLoop pairLoopEnv 0 [scenarioPair] =
      (scenarioPair :: (runPairsLoop pairLoopEnv 1 []).1,
        false :: (runPairsLoop pairLoopEnv 1 []).2.1, (runPairsLoop pairLoopEnv 1 []).2.2) ∧
    runDiffsLoop diffLoopEnv 0 [finishedDiff] =
      (finishedDiff :: (runDiffsLoop diffLoopEnv 1 []).1,
        false :: (runDiffsLoop diffLoopEnv 1 []).2.1, (runDiffsLoop diffLoopEnv 1 []).2.2) :=
  ⟨C1_out_of_range_skip.1 scenarioPair ⟨some record12, some record8, true⟩ record12 record8
      rfl rfl (by decide),
   C1_out_of_range_skip.2.1 finishedDiff ⟨some sampleRecord, true⟩ sampleRecord rfl (by decide),
   C1_out_of_range_skip.2.2.1 finishedPair ⟨some sampleRecord, some sampleRecord, true⟩
      sampleRecord sampleRecord rfl rfl (by decide),
   C1_out_of_range_skip.2.2.2.1 finishedDiff ⟨some sampleRecord, true⟩ sampleRecord
      rfl (by decide),
   C1_out_of_range_skip.2.2.2.2.1 pairLoopEnv 0 scenarioPair [] record12 record8
      rfl rfl (by decide),
   C1_out_of_range_skip.2.2.2.2.2 diffLoopEnv 0 finishedDiff [] sampleRecord rfl (by decide)⟩

/-- Claim C3: for any record and in-range `g`, the games-remaining
figures equal `max (162 - g) 0` and `max (154 - g) 0`, each
required-differential figure is the "not applicable" sentinel exactly
when its games-remaining denominator is 0, and otherwise equals
`(benchmark - run differential) / games remaining`. -/
theorem C3_sentinel_iff_zero_remaining :
    ∀ (rec : SeasonRecord) (g : ℤ) (r : DiffReport), 1 ≤ g →
      generate_chart_metrics rec g = some r →
      r.gamesRemaining162 = max (162 - g) 0 ∧
      r.gamesRemaining154 = max (154 - g) 0 ∧
      (r.reqDiffModern = MetricValue.na ↔ r.gamesRemaining162 = 0) ∧
      (r.reqDiffOlden = MetricValue.na ↔ r.gamesRemaining154 = 0) ∧
      (r.reqDiffOldenModernGames = MetricValue.na ↔ r.gamesRemaining162 = 0) ∧
      (r.gamesRemaining162 ≠ 0 →
        r.reqDiffModern =
          MetricValue.num (((OAK_2023_DIFF - r.runDiff : ℤ) : ℚ) / (r.gamesRemaining162 : ℚ)) ∧
        r.reqDiffOldenModernGames =
          MetricValue.num (((BOS_1932_DIFF - r.runDiff : ℤ) : ℚ) / (r.gamesRemaining162 : ℚ))) ∧
      (r.gamesRemaining154 ≠ 0 →
        r.reqDiffOlden =
          MetricValue.num (((BOS_1932_DIFF - r.runDiff : ℤ) : ℚ) / (r.gamesRemaining154 : ℚ))) := by
  intro rec g r hg h
  obtain ⟨-, -, -, h162, h154, hm, ho, homg, -⟩ := generate_chart_metrics_spec h
  simp only [TOTAL_GAMES_MODERN, TOTAL_GAMES_OLDEN] at h162 h154
  have h162nn : 0 ≤ r.gamesRemaining162 := by rw [h162]; split_ifs <;> omega
  have h154nn : 0 ≤ r.gamesRemaining154 := by rw [h154]; split_ifs <;> omega
  refine ⟨?_, ?_, ?_, ?_, ?_, ?_, ?_⟩
  · rw [h162]; split_ifs <;> omega
  · rw [h154]; split_ifs <;> omega
  · rw [hm]; split_ifs with hpos <;> simp <;> omega
  · rw [ho]; split_ifs with hpos <;> simp <;> omega
  · rw [homg]; split_ifs with hpos <;> simp <;> omega
  · intro hne
    constructor
    · rw [hm, if_pos (by omega)]
    · rw [homg, if_pos (by omega)]
  · intro hne
    rw [ho, if_pos (by omega)]

/-- Claim C3, witness: the report of `sampleRecord` at game 1 satisfies
every conjunct of `C3_sentinel_iff_zero_remaining`. -/
theorem C3_sentinel_iff_zero_remaining_witness :
    generate_chart_metrics sampleRecord 1 = some sampleReport ∧
    (sampleReport.gamesRemaining162 = max (162 - 1) 0 ∧
      sampleReport.gamesRemaining154 = max (154 - 1) 0 ∧
      (sampleReport.reqDiffModern = MetricValue.na ↔ sampleReport.gamesRemaining162 = 0) ∧
      (sampleReport.reqDiffOlden = MetricValue.na ↔ sampleReport.gamesRemaining154 = 0) ∧
      (sampleReport.reqDiffOldenModernGames = MetricValue.na ↔
        sampleReport.gamesRemaining162 = 0) ∧
      (sampleReport.gamesRemaining162 ≠ 0 →
        sampleReport.reqDiffModern = MetricValue.num
          (((OAK_2023_DIFF - sampleReport.runDiff : ℤ) : ℚ) /
            (sampleReport.gamesRemaining162 : ℚ)) ∧
        sampleReport.reqDiffOldenModernGames = MetricValue.num
          (((BOS_1932_DIFF - sampleReport.runDiff : ℤ) : ℚ) /
            (sampleReport.gamesRemaining162 : ℚ))) ∧
      (sampleReport.gamesRemaining154 ≠ 0 →
        sampleReport.reqDiffOlden = MetricValue.num
          (((BOS_1932_DIFF - sampleReport.runDiff : ℤ) : ℚ) /
            (sampleReport.gamesRemaining154 : ℚ)))) :=
  have h : generate_chart_metrics sampleRecord 1 = some sampleReport := (Option.some_get _).symm
  ⟨h, C3_sentinel_iff_zero_remaining sampleRecord 1 sampleReport (by norm_num) h⟩

/-- Claim C10: under the loop's in-range guard (`1 ≤ g`) the per-game
divisions of `generate_chart` have nonzero denominator `g` (their
quotients multiply back to the numerators), and the Pythagorean
denominator is nonzero whenever the cumulative runs through `g` are not
all zero; but the guard alone does not rule the 0/0 case out: there is a
record and an in-range `g` with zero cumulative runs whose Pythagorean
denominator is 0. -/
theorem C10_division_totality :
    (∀ (rec : SeasonRecord) (g : ℤ) (r : DiffReport), 1 ≤ g →
      generate_chart_metrics rec g = some r →
      (g : ℚ) ≠ 0 ∧ r.runDiffPerGame * (g : ℚ) = (r.runDiff : ℚ) ∧
        r.currentWinPct * (g : ℚ) = (r.currentWins : ℚ)) ∧
    (∀ (rec : SeasonRecord) (g : ℤ),
      0 < runs_scored_through rec g + runs_allowed_through rec g →
      (runs_scored_through rec g : ℚ) ^ 2 + (runs_allowed_through rec g : ℚ) ^ 2 ≠ 0) ∧
    (∃ (rec : SeasonRecord) (g : ℤ), 1 ≤ g ∧ g ≤ (get_season_games_played rec : ℤ) ∧
      runs_scored_through rec g + runs_allowed_through rec g = 0 ∧
      (runs_scored_through rec g : ℚ) ^ 2 + (runs_allowed_through rec g : ℚ) ^ 2 = 0) := by
  refine ⟨?_, ?_, ?_⟩
  · intro rec g r hg h
    obtain ⟨-, -, hpg, -, -, -, -, -, hwp⟩ := generate_chart_metrics_spec h
    have hgq : (g : ℚ) ≠ 0 := by
      exact_mod_cast (by omega : g ≠ 0)
    exact ⟨hgq, by rw [hpg, div_mul_cancel₀ _ hgq], by rw [hwp, div_mul_cancel₀ _ hgq]⟩
  · intro rec g hpos
    have hcases : runs_scored_through rec g ≠ 0 ∨ runs_allowed_through rec g ≠ 0 := by omega
    have hlt : (0 : ℚ) < (runs_scored_through rec g : ℚ) ^ 2 +
        (runs_allowed_through rec g : ℚ) ^ 2 := by
      rcases hcases with hc | hc
      · have hq : (0 : ℚ) < (runs_scored_through rec g : ℚ) := by
          exact_mod_cast Nat.pos_of_ne_zero hc
        have := pow_pos hq 2
        nlinarith [sq_nonneg ((runs_allowed_through rec g : ℚ))]
      · have hq : (0 : ℚ) < (runs_allowed_through rec g : ℚ) := by
          exact_mod_cast Nat.pos_of_ne_zero hc
        have := pow_pos hq 2
        nlinarith [sq_nonneg ((runs_scored_through rec g : ℚ))]
    exact ne_of_gt hlt
  · refine ⟨zeroRunsRecord, 1, by norm_num, by decide, by decide, ?_⟩
    have h1 : runs_scored_through zeroRunsRecord 1 = 0 := by decide
    have h2 : runs_allowed_through zeroRunsRecord 1 = 0 := by decide
    rw [h1, h2]
    norm_num

/-- Claim C10, witness: concrete instances of the hypothesis-guarded
parts of `C10_division_totality` at `sampleRecord`, game 1. -/
theorem C10_division_totality_witness :
    (((1 : ℤ) : ℚ) ≠ 0 ∧ sampleReport.runDiffPerGame * ((1 : ℤ) : ℚ) = (sampleReport.runDiff : ℚ) ∧
      sampleReport.currentWinPct * ((1 : ℤ) : ℚ) = (sampleReport.currentWins : ℚ)) ∧
    (runs_scored_through sampleRecord 1 : ℚ) ^ 2 + (runs_allowed_through sampleRecord 1 : ℚ) ^ 2 ≠ 0 :=
  ⟨C10_division_totality.1 sampleRecord 1 sampleReport (by norm_num) (Option.some_get _).symm,
   C10_division_totality.2.1 sampleRecord 1 (by decide)⟩

/-- Claim C4: `pythagoreanWinPct` equals
`scored^e / (scored^e + allowed^e)` for both exponents used (2 and
1.83); with `runsAllowed = 0` and `runsScored > 0` the result is 1; and
`pythagoreanWinPct 50 40 2` is 0.6098 to four decimal places. -/
theorem C4_pythagorean_formula :
    (∀ rs ra : ℝ, pythagoreanWinPct rs ra 2 = rs ^ (2 : ℕ) / (rs ^ (2 : ℕ) + ra ^ (2 : ℕ))) ∧
    (∀ rs ra : ℝ, pythagoreanWinPct rs ra 1.83 =
      rs ^ (1.83 : ℝ) / (rs ^ (1.83 : ℝ) + ra ^ (1.83 : ℝ))) ∧
    (∀ rs : ℝ, 0 < rs → pythagoreanWinPct rs 0 2 = 1 ∧ pythagoreanWinPct rs 0 1.83 = 1) ∧
    |pythagoreanWinPct 50 40 2 - 0.6098| < 0.00005 := by
  have hnat : ∀ x : ℝ, x ^ (2 : ℝ) = x ^ (2 : ℕ) := fun x => by
    rw [show (2 : ℝ) = ((2 : ℕ) : ℝ) by norm_num, Real.rpow_natCast]
  refine ⟨?_, ?_, ?_, ?_⟩
  · intro rs ra
    unfold pythagoreanWinPct
    rw [hnat, hnat]
  · intro rs ra
    rfl
  · intro rs hrs
    have hz2 : (0 : ℝ) ^ (2 : ℝ) = 0 := Real.zero_rpow (by norm_num)
    have hz183 : (0 : ℝ) ^ (1.83 : ℝ) = 0 := Real.zero_rpow (by norm_num)
    have hp2 : 0 < rs ^ (2 : ℝ) := Real.rpow_pos_of_pos hrs 2
    have hp183 : 0 < rs ^ (1.83 : ℝ) := Real.rpow_pos_of_pos hrs 1.83
    constructor
    · unfold pythagoreanWinPct
      rw [hz2, add_zero, div_self (ne_of_gt hp2)]
    · unfold pythagoreanWinPct
      rw [hz183, add_zero, div_self (ne_of_gt hp183)]
  · unfold pythagoreanWinPct
    rw [hnat, hnat]
    rw [abs_sub_lt_iff]
    norm_num

/-- Claim C4, witness: the `runsAllowed = 0` part of
`C4_pythagorean_formula` at `runsScored = 7`. -/
theorem C4_pythagorean_formula_witness :
    pythagoreanWinPct 7 0 2 = 1 ∧ pythagoreanWinPct 7 0 1.83 = 1 :=
  C4_pythagorean_formula.2.2.1 7 (by norm_num)

/-- Claim C9: for a fixed positive exponent, `pythagoreanWinPct` is
strictly increasing in runs scored and strictly decreasing in runs
allowed over positive inputs. -/
theorem C9_pythagorean_monotone :
    (∀ (e rs₁ rs₂ ra : ℝ), 0 < e → 0 < ra → 0 < rs₁ → rs₁ < rs₂ →
      pythagoreanWinPct rs₁ ra e < pythagoreanWinPct rs₂ ra e) ∧
    (∀ (e rs ra₁ ra₂ : ℝ), 0 < e → 0 < rs → 0 < ra₁ → ra₁ < ra₂ →
      pythagoreanWinPct rs ra₂ e < pythagoreanWinPct rs ra₁ e) := by
  constructor
  · intro e rs₁ rs₂ ra he hra h1 h12
    have ha1 : 0 < rs₁ ^ e := Real.rpow_pos_of_pos h1 e
    have hc : 0 < ra ^ e := Real.rpow_pos_of_pos hra e
    have hlt : rs₁ ^ e < rs₂ ^ e := Real.rpow_lt_rpow (le_of_lt h1) h12 he
    unfold pythagoreanWinPct
    rw [div_lt_div_iff₀ (by linarith) (by linarith)]
    nlinarith
  · intro e rs ra₁ ra₂ he hrs h1 h12
    have hs : 0 < rs ^ e := Real.rpow_pos_of_pos hrs e
    have hb1 : 0 < ra₁ ^ e := Real.rpow_pos_of_pos h1 e
    have hlt : ra₁ ^ e < ra₂ ^ e := Real.rpow_lt_rpow (le_of_lt h1) h12 he
    unfold pythagoreanWinPct
    rw [div_lt_div_iff₀ (by linarith) (by linarith)]
    nlinarith

/-- Claim C9, witness: both monotonicity parts at exponent 2 and
concrete run counts. -/
theorem C9_pythagorean_monotone_witness :
    pythagoreanWinPct 1 1 2 < pythagoreanWinPct 2 1 2 ∧
    pythagoreanWinPct 1 2 2 < pythagoreanWinPct 1 1 2 :=
  ⟨C9_pythagorean_monotone.1 2 1 2 1 (by norm_num) (by norm_num) (by norm_num) (by norm_num),
   C9_pythagorean_monotone.2 2 1 1 2 (by norm_num) (by norm_num) (by norm_num) (by norm_num)⟩

/-- Claim C5: the TrackedPair caption is the three-way branch on the two
final win counts with season B as the rhetorical subject — season A
strictly ahead gives the "worse" framing with margin `y1 - y2`, season B
strictly ahead gives the "ahead" framing with margin `y2 - y1`, equal
wins gives the neutral framing; and at `g = 100` with 61 vs 63 wins the
caption is the "ahead" branch with margin 2. -/
theorem C5_caption_three_way_branch :
    (∀ (teamA : String) (yearA : ℤ) (teamB : String) (yearB : ℤ) (g y1 y2 : ℤ),
      (y2 < y1 → post_plot_caption teamA yearA teamB yearB g y1 y2 =
        worse_caption teamA yearA teamB yearB g y1 y2) ∧
      (y1 < y2 → post_plot_caption teamA yearA teamB yearB g y1 y2 =
        ahead_caption teamA yearA teamB yearB g y1 y2) ∧
      (y1 = y2 → post_plot_caption teamA yearA teamB yearB g y1 y2 =
        tie_caption teamA yearA teamB yearB g y1 y2)) ∧
    post_plot_caption "NYM" 1962 "CWS" 2024 100 61 63 =
      "Through 100 game(s) played, the CWS 2024 season is ahead with 63 wins, above the NYM 1962 season by 2 win(s).\n\nThe grass, for now, is greener here. It could always be worse." := by
  constructor
  · intro teamA yearA teamB yearB g y1 y2
    refine ⟨?_, ?_, ?_⟩
    · intro h
      unfold post_plot_caption
      rw [if_pos h]
    · intro h
      unfold post_plot_caption
      rw [if_neg (by omega), if_pos h]
    · intro h
      unfold post_plot_caption
      rw [if_neg (by omega), if_neg (by omega)]
  · rfl

/-- Claim C5, witness: each branch of `C5_caption_three_way_branch` at
concrete win counts. -/
theorem C5_caption_three_way_branch_witness :
    post_plot_caption "NYM" 1962 "CWS" 2024 5 3 1 =
      worse_caption "NYM" 1962 "CWS" 2024 5 3 1 ∧
    post_plot_caption "NYM" 1962 "CWS" 2024 5 1 3 =
      ahead_caption "NYM" 1962 "CWS" 2024 5 1 3 ∧
    post_plot_caption "NYM" 1962 "CWS" 2024 5 2 2 =
      tie_caption "NYM" 1962 "CWS" 2024 5 2 2 :=
  ⟨(C5_caption_three_way_branch.1 "NYM" 1962 "CWS" 2024 5 3 1).1 (by norm_num),
   (C5_caption_three_way_branch.1 "NYM" 1962 "CWS" 2024 5 1 3).2.1 (by norm_num),
   (C5_caption_three_way_branch.1 "NYM" 1962 "CWS" 2024 5 2 2).2.2 rfl⟩

/-- Claim C6 (amended): when an exception escapes the main loop, the
cleanup of the `finally` block (current-year cache flush, lock release)
still runs and the run terminates with exit code 0, but the
configuration file is not rewritten at all: it keeps its pre-run
content, so the in-memory cursor advances of trackers that completed
before the error are not persisted (no partial state is written
either). -/
theorem C6_exception_cleanup_no_save :
    ∀ (env : MainEnv) (cfg0 : Config), (runMain env cfg0).raised = true →
      (runMain env cfg0).cacheFlushedCurrentYear = true ∧
      (runMain env cfg0).lockReleased = true ∧
      (runMain env cfg0).exitCode = 0 ∧
      (runMain env cfg0).diskConfig = cfg0 := by
  intro env cfg0
  by_cases hL : env.lockAvailable = true
  · by_cases hO : env.loadOk = true
    · by_cases hp : (runPairsLoop env.pairEnv 0 cfg0.pairs).2.2 = true
      · simp [runMain, hL, hO, hp]
      · by_cases hd : (runDiffsLoop env.diffEnv 0 cfg0.diffs).2.2 = true
        · simp [runMain, hL, hO, hp, hd]
        · simp [runMain, hL, hO, hp, hd]
    · simp [runMain, hL, hO]
  · simp [runMain, hL]

/-- Claim C6, witness: the error-path cleanup facts of
`C6_exception_cleanup_no_save` at `failSecondEnv`. -/
theorem C6_exception_cleanup_no_save_witness :
    (runMain failSecondEnv twoDiffConfig).raised = true ∧
    ((runMain failSecondEnv twoDiffConfig).cacheFlushedCurrentYear = true ∧
      (runMain failSecondEnv twoDiffConfig).lockReleased = true ∧
      (runMain failSecondEnv twoDiffConfig).exitCode = 0 ∧
      (runMain failSecondEnv twoDiffConfig).diskConfig = twoDiffConfig) :=
  ⟨by decide, C6_exception_cleanup_no_save failSecondEnv twoDiffConfig (by decide)⟩

/-- Claim C6, counterexample to the claim as stated: the first diff
tracker completes (it publishes, cursor 3 advances to 4 in memory), the
second tracker's fetch then raises — and the persisted configuration
still holds cursor 3 for the completed tracker, not the cursor the claim
requires it to reflect. -/
theorem C6_completed_cursor_not_persisted :
    (runMain failSecondEnv twoDiffConfig).raised = true ∧
    (runMain failSecondEnv twoDiffConfig).diffPubs = [true, false] ∧
    ((runMain failSecondEnv twoDiffConfig).diskConfig.diffs.map fun d => d.games_played) =
      [3, 3] := by decide

/-- Claim C7 (amended): when a season-data fetch raises, there is no
per-tracker handler inside the loop: the exception aborts the loop at
that tracker, leaving it and every remaining tracker unprocessed —
cursors unchanged, nothing published — instead of continuing with the
remaining trackers. -/
theorem C7_fetch_error_aborts_loop :
    (∀ (f : ℕ → DiffEnv) (i : ℕ) (d : TrackedDiff) (rest : List TrackedDiff),
      (f i).fetch = none →
      runDiffsLoop f i (d :: rest) = (d :: rest, false :: rest.map (fun _ => false), true)) ∧
    (∀ (f : ℕ → PairEnv) (i : ℕ) (p : TrackedPair) (rest : List TrackedPair),
      ((f i).fetchA = none ∨ (f i).fetchB = none) →
      runPairsLoop f i (p :: rest) = (p :: rest, false :: rest.map (fun _ => false), true)) := by
  constructor
  · intro f i d rest hf
    have hstep : process_diff_item d (f i) = ⟨true, false, false, d⟩ := by
      unfold process_diff_item
      rw [hf]
    simp only [runDiffsLoop, hstep]
    rfl
  · intro f i p rest hf
    have hstep : process_pair_item p (f i) = ⟨true, false, false, p⟩ := by
      rcases hf with h | h
      · unfold process_pair_item
        rw [h]
      · unfold process_pair_item
        rw [h]
        rcases hA : (f i).fetchA with _ | recA <;> rfl
    simp only [runPairsLoop, hstep]
    rfl

/-- Claim C7, witness: both parts of `C7_fetch_error_aborts_loop` at a
one-element remainder. -/
theorem C7_fetch_error_aborts_loop_witness :
    runDiffsLoop failFirstDiffEnv 0 [⟨"A", 2025, 3⟩, ⟨"B", 2025, 3⟩] =
      ([⟨"A", 2025, 3⟩, ⟨"B", 2025, 3⟩], [false, false], true) ∧
    runPairsLoop (fun _ => ⟨none, some sampleRecord, true⟩) 0 [finishedPair] =
      ([finishedPair], [false], true) :=
  ⟨C7_fetch_error_aborts_loop.1 failFirstDiffEnv 0 ⟨"A", 2025, 3⟩ [⟨"B", 2025, 3⟩] (by decide),
   C7_fetch_error_aborts_loop.2 (fun _ => ⟨none, some sampleRecord, true⟩) 0 finishedPair []
     (Or.inl rfl)⟩

/-- Claim C7, counterexample to the claim as stated: the first diff
tracker's fetch fails, and the loop does not continue — the second
tracker, which would have published successfully had it been processed,
is left unprocessed and unpublished. -/
theorem C7_remaining_tracker_not_processed :
    runDiffsLoop failFirstDiffEnv 0 [⟨"A", 2025, 3⟩, ⟨"B", 2025, 3⟩] =
      ([⟨"A", 2025, 3⟩, ⟨"B", 2025, 3⟩], [false, false], true) ∧
    (process_diff_item ⟨"B", 2025, 3⟩ (failFirstDiffEnv 1)).published = true := by decide

/-- Claim C8 (amended): the process exits 0 on normal completion and
with the distinguished code 1 when the advisory lock cannot be acquired
(fail fast, nothing processed); but every error inside the run body —
including a malformed or missing configuration — is swallowed by the
broad handler, and the process still exits 0. -/
theorem C8_exit_codes :
    ∀ (env : MainEnv) (cfg0 : Config),
      (env.lockAvailable = false →
        (runMain env cfg0).exitCode = 1 ∧ (runMain env cfg0).pairPubs = [] ∧
          (runMain env cfg0).diffPubs = [] ∧ (runMain env cfg0).diskConfig = cfg0) ∧
      (env.lockAvailable = true → (runMain env cfg0).exitCode = 0) := by
  intro env cfg0
  constructor
  · intro h
    simp [runMain, h]
  · intro hL
    by_cases hO : env.loadOk = true
    · by_cases hp : (runPairsLoop env.pairEnv 0 cfg0.pairs).2.2 = true
      · simp [runMain, hL, hO, hp]
      · by_cases hd : (runDiffsLoop env.diffEnv 0 cfg0.diffs).2.2 = true
        · simp [runMain, hL, hO, hp, hd]
        · simp [runMain, hL, hO, hp, hd]
    · simp [runMain, hL, hO]

/-- Claim C8, witness: both parts of `C8_exit_codes`, at an env whose
lock is held elsewhere and at one whose run raises. -/
theorem C8_exit_codes_witness :
    ((runMain lockHeldEnv twoDiffConfig).exitCode = 1 ∧
      (runMain lockHeldEnv twoDiffConfig).pairPubs = [] ∧
      (runMain lockHeldEnv twoDiffConfig).diffPubs = [] ∧
      (runMain lockHeldEnv twoDiffConfig).diskConfig = twoDiffConfig) ∧
    (runMain loadFailEnv twoDiffConfig).exitCode = 0 :=
  ⟨(C8_exit_codes lockHeldEnv twoDiffConfig).1 rfl,
   (C8_exit_codes loadFailEnv twoDiffConfig).2 rfl⟩

/-- Claim C8, counterexample to the claim as stated: the configuration
fails to load — a fatal error the claim says must yield a non-zero exit
status — yet the exception is caught and the process exits 0. -/
theorem C8_fatal_error_exits_zero :
    (runMain loadFailEnv twoDiffConfig).raised = true ∧
    (runMain loadFailEnv twoDiffConfig).exitCode = 0 := by decide

end SeasonMetrics
